import Mathlib

/-!
Verification development for the `mc-verifier` verification-traits crate
(`src/verification/traits/src/lib.rs`).

The crate composes verification checks into boolean expression trees with
short-circuit evaluation.  We embed it as a deep tree of steps:

* `VerificationError` mirrors `pub struct VerificationError(String)`.
* `Step.node` mirrors the test fixture `Node { succeed, message,
  verified_called: Cell<bool> }`, the generic user-defined leaf: it can
  realise any outcome (success, or failure with any message) and records
  its invocation in a boolean cell.
* `Step.alwaysTrue` / `Step.alwaysFalse` mirror `AlwaysTrue` / `AlwaysFalse`.
* `Step.and` / `Step.or` mirror the `And` and `Or` composites.

`verify` is the embedding of `VerificationStep::verify`.  Because a leaf
may mutate its `verified_called` cell, `verify` is a state transformer:
it returns the `Result<(), VerificationError>` outcome together with the
tree after the call (the cells of the leaves that were invoked flipped to
`true`, every other leaf untouched).  The `and` branch embeds
`self.left.verify()?; self.right.verify()`; the `or` branch embeds
`self.left.verify().or_else(|_| self.right.verify())`.
-/

/-- Mirrors `pub struct VerificationError(String)`. -/
structure VerificationError where
  message : String
deriving DecidableEq, Repr

namespace VerificationError

/-- Mirrors `impl<S: Into<String>> From<S> for VerificationError`,
i.e. `fn from(message: S) -> Self { Self(message.into()) }`:
the conversion stores the given string verbatim.  (`from` is a Lean
keyword, hence the longer name.) -/
def fromMessage (message : String) : VerificationError :=
  ⟨message⟩

end VerificationError

/-- The tree of verification steps.  `node` is the generic
invocation-recording leaf (the crate's test fixture `Node`), `alwaysTrue`
and `alwaysFalse` are the two canonical leaves, `and` and `or` are the
two composites. -/
inductive Step where
  | node (succeed : Bool) (message : String) (called : Bool)
  | alwaysTrue
  | alwaysFalse
  | and (left right : Step)
  | or (left right : Step)
deriving DecidableEq, Repr

namespace Step

/-- The embedding of `VerificationStep::verify`.  Returns the outcome of
the call together with the tree after the call (invoked leaves have their
`verified_called` cell set, skipped subtrees are returned unchanged).

* `node`: `self.verified_called.replace(true); if self.succeed { Ok(()) }
  else { Err(VerificationError::from(self.message.clone())) }`.
* `alwaysTrue`: `Ok(())`.
* `alwaysFalse`: `Err(VerificationError::from("AlwaysFalse"))`.
* `and`: `self.left.verify()?; self.right.verify()`.
* `or`: `self.left.verify().or_else(|_| self.right.verify())`. -/
def verify : Step → Except VerificationError Unit × Step
  | .node succeed message _ =>
      (if succeed then Except.ok () else Except.error ⟨message⟩,
        .node succeed message true)
  | .alwaysTrue => (Except.ok (), .alwaysTrue)
  | .alwaysFalse => (Except.error ⟨"AlwaysFalse"⟩, .alwaysFalse)
  | .and l r =>
      match verify l with
      | (Except.error e, l2) => (Except.error e, .and l2 r)
      | (Except.ok _, l2) =>
          match verify r with
          | (res, r2) => (res, .and l2 r2)
  | .or l r =>
      match verify l with
      | (Except.ok _, l2) => (Except.ok (), .or l2 r)
      | (Except.error _, l2) =>
          match verify r with
          | (res, r2) => (res, .or l2 r2)

/-- The outcome part of a `verify` call (the `Result` the caller sees). -/
def outcome (s : Step) : Except VerificationError Unit :=
  (verify s).1

/-- The tree after a `verify` call (the invocation-recording state). -/
def after (s : Step) : Step :=
  (verify s).2

/-- The runtime type of a step, the tag `Any::downcast_ref` matches on.
`And`, `Or`, `AlwaysTrue`, `AlwaysFalse` and the test fixture `Node` are
five distinct Rust types. -/
inductive Ty where
  | node
  | alwaysTrue
  | alwaysFalse
  | and
  | or
deriving DecidableEq, Repr

/-- The concrete type a step value was constructed with. -/
def typeOf : Step → Ty
  | .node _ _ _ => .node
  | .alwaysTrue => .alwaysTrue
  | .alwaysFalse => .alwaysFalse
  | .and _ _ => .and
  | .or _ _ => .or

/-- Mirrors `fn as_any(&self) -> &dyn Any { self }`: every implementation
in the crate returns the value itself. -/
def as_any (s : Step) : Step :=
  s

/-- The embedding of `<dyn Any>::downcast_ref::<T>`: yields the value when
its runtime type is `T`, and `None` otherwise. -/
def downcast_ref (s : Step) (t : Ty) : Option Step :=
  if s.typeOf = t then some s else none

/-- Mirrors `And::left` / `Or::left`: the left child of a composite
(`none` on a leaf, which has no accessor). -/
def left : Step → Option Step
  | .and l _ => some l
  | .or l _ => some l
  | _ => none

/-- Mirrors `And::right` / `Or::right`: the right child of a composite. -/
def right : Step → Option Step
  | .and _ r => some r
  | .or _ r => some r
  | _ => none

theorem verify_and (l r : Step) :
    verify (.and l r) =
      match verify l with
      | (Except.error e, l2) => (Except.error e, .and l2 r)
      | (Except.ok _, l2) => ((verify r).1, .and l2 (verify r).2) := by
  rw [verify]

theorem verify_or (l r : Step) :
    verify (.or l r) =
      match verify l with
      | (Except.ok _, l2) => (Except.ok (), .or l2 r)
      | (Except.error _, l2) => ((verify r).1, .or l2 (verify r).2) := by
  rw [verify]

theorem outcome_and (a b : Step) :
    outcome (.and a b) =
      match outcome a with
      | Except.ok _ => outcome b
      | Except.error e => Except.error e := by
  unfold outcome
  rw [verify_and]
  rcases h : verify a with ⟨res, a2⟩
  cases res <;> simp

theorem outcome_or (a b : Step) :
    outcome (.or a b) =
      match outcome a with
      | Except.ok _ => Except.ok ()
      | Except.error _ => outcome b := by
  unfold outcome
  rw [verify_or]
  rcases h : verify a with ⟨res, a2⟩
  cases res <;> simp

end Step

/-- Claim C1: for every pair of verification steps `a` and `b`,
`And(a, b).verify()` returns success if and only if both `a.verify()` and
`b.verify()` return success. -/
theorem and_verify_ok_iff (a b : Step) :
    Step.outcome (.and a b) = Except.ok () ↔
      (Step.outcome a = Except.ok () ∧ Step.outcome b = Except.ok ()) := by
  rw [Step.outcome_and]
  cases h : Step.outcome a <;> simp

/-- Claim C2: for every pair of verification steps `a` and `b`,
`Or(a, b).verify()` returns success if and only if `a.verify()` returns
success or `b.verify()` returns success. -/
theorem or_verify_ok_iff (a b : Step) :
    Step.outcome (.or a b) = Except.ok () ↔
      (Step.outcome a = Except.ok () ∨ Step.outcome b = Except.ok ()) := by
  rw [Step.outcome_or]
  cases h : Step.outcome a <;> simp

/-- Claim C3: if `a.verify()` fails then `And(a, b).verify()` returns that
failure, and the right child `b` — including any invocation-recording state
inside it — is returned completely unchanged: `b.verify()` is never
invoked. -/
theorem and_short_circuit (a b : Step) (e : VerificationError)
    (h : Step.outcome a = Except.error e) :
    Step.verify (.and a b) = (Except.error e, .and (Step.after a) b) := by
  unfold Step.outcome at h
  unfold Step.after
  rw [Step.verify_and]
  rcases hv : Step.verify a with ⟨res, a2⟩
  rw [hv] at h
  simp only at h
  subst h
  rfl

/-- Witness for C3 at `a = Node(false, "First")`, `b = Node(true, "Second")`:
the composite fails with "First" and `b`'s `verified_called` cell stays
`false`. -/
theorem and_short_circuit_witness :
    Step.verify (.and (.node false "First" false) (.node true "Second" false)) =
      (Except.error ⟨"First"⟩,
        .and (Step.after (.node false "First" false)) (.node true "Second" false)) :=
  and_short_circuit (.node false "First" false) (.node true "Second" false)
    ⟨"First"⟩ rfl

/-- Claim C4: if `a.verify()` succeeds then `Or(a, b).verify()` returns
success, and the right child `b` — including any invocation-recording state
inside it — is returned completely unchanged: `b.verify()` is never
invoked. -/
theorem or_short_circuit (a b : Step)
    (h : Step.outcome a = Except.ok ()) :
    Step.verify (.or a b) = (Except.ok (), .or (Step.after a) b) := by
  unfold Step.outcome at h
  unfold Step.after
  rw [Step.verify_or]
  rcases hv : Step.verify a with ⟨res, a2⟩
  rw [hv] at h
  simp only at h
  subst h
  rfl

/-- Witness for C4 at `a = Node(true, "First")`, `b = Node(false, "Second")`:
the composite succeeds and `b`'s `verified_called` cell stays `false`. -/
theorem or_short_circuit_witness :
    Step.verify (.or (.node true "First" false) (.node false "Second" false)) =
      (Except.ok (),
        .or (Step.after (.node true "First" false)) (.node false "Second" false)) :=
  or_short_circuit (.node true "First" false) (.node false "Second" false) rfl

/-- Claim C5: when `a.verify()` fails with some reason and `b.verify()`
fails with reason `r`, `Or(a, b).verify()` fails with exactly `r`: the
right-hand failure reason surfaces and the left one is discarded. -/
theorem or_both_fail_right_reason (a b : Step) (e r : VerificationError)
    (ha : Step.outcome a = Except.error e)
    (hb : Step.outcome b = Except.error r) :
    Step.outcome (.or a b) = Except.error r := by
  rw [Step.outcome_or, ha]
  exact hb

/-- Witness for C5 at `a = Node(false, "First")`, `b = Node(false, "Second")`:
the composite fails with "Second". -/
theorem or_both_fail_right_reason_witness :
    Step.outcome (.or (.node false "First" false) (.node false "Second" false)) =
      Except.error ⟨"Second"⟩ :=
  or_both_fail_right_reason (.node false "First" false)
    (.node false "Second" false) ⟨"First"⟩ ⟨"Second"⟩ rfl rfl

/-- Claim C6: `And(a, b).verify()` propagates the deciding child's outcome
unchanged: if `a.verify()` fails with `r1` the composite fails with exactly
`r1`; if `a.verify()` succeeds and `b.verify()` fails with `r2` the
composite fails with exactly `r2`. -/
theorem and_propagates_reason (a b : Step) :
    (∀ r1 : VerificationError, Step.outcome a = Except.error r1 →
        Step.outcome (.and a b) = Except.error r1) ∧
    (∀ r2 : VerificationError, Step.outcome a = Except.ok () →
        Step.outcome b = Except.error r2 →
        Step.outcome (.and a b) = Except.error r2) := by
  constructor
  · intro r1 h
    rw [Step.outcome_and, h]
  · intro r2 h1 h2
    rw [Step.outcome_and, h1]
    exact h2

/-- Witness for C6: with both children failing ("First"/"Second") the
composite reports "First"; with the left succeeding and the right failing
with "Second" it reports "Second". -/
theorem and_propagates_reason_witness :
    Step.outcome (.and (.node false "First" false) (.node false "Second" false)) =
        Except.error ⟨"First"⟩ ∧
    Step.outcome (.and (.node true "First" false) (.node false "Second" false)) =
        Except.error ⟨"Second"⟩ :=
  ⟨(and_propagates_reason (.node false "First" false)
      (.node false "Second" false)).1 ⟨"First"⟩ rfl,
   (and_propagates_reason (.node true "First" false)
      (.node false "Second" false)).2 ⟨"Second"⟩ rfl rfl⟩

/-- Claim C7 counterexample: the `From` conversion accepts any string,
including the empty one, so a `VerificationError` whose reason text is
empty IS constructible through the public interface — refuting the claim
that every constructible error carries non-empty text. -/
theorem verification_error_empty_reason_constructible :
    ¬ ∀ s : String, (VerificationError.fromMessage s).message ≠ "" := by
  intro h
  exact h "" rfl

/-- Claim C7 (amended): the `From` conversion stores the provided string
verbatim as the reason text; in particular the reason is non-empty if and
only if the provided string is non-empty — no non-emptiness is enforced
by the conversion itself. -/
theorem verification_error_reason_verbatim (s : String) :
    (VerificationError.fromMessage s).message = s ∧
      ((VerificationError.fromMessage s).message ≠ "" ↔ s ≠ "") :=
  ⟨rfl, Iff.rfl⟩

/-- Claim C8: for every composite (`And` or `Or`), the `left()`/`right()`
accessors return the children it was constructed with, and downcasting a
child via `as_any()` to its own concrete type yields the value while
downcasting to any other concrete type yields `none` rather than a crash
or a wrong-typed object. -/
theorem accessor_downcast_correct (l r : Step) (t : Step.Ty)
    (h : t ≠ l.typeOf) :
    (Step.and l r).left = some l ∧ (Step.or l r).left = some l ∧
    (Step.and l r).right = some r ∧ (Step.or l r).right = some r ∧
    Step.downcast_ref l.as_any l.typeOf = some l ∧
    Step.downcast_ref l.as_any t = none := by
  refine ⟨rfl, rfl, rfl, rfl, ?_, ?_⟩
  · unfold Step.downcast_ref Step.as_any
    rw [if_pos rfl]
  · unfold Step.downcast_ref Step.as_any
    rw [if_neg (Ne.symm h)]

/-- Witness for C8 at `l = AlwaysFalse`, `r = AlwaysTrue`, wrong type
`AlwaysTrue`: the downcast to `AlwaysFalse` succeeds, the downcast to
`AlwaysTrue` yields `none`. -/
theorem accessor_downcast_correct_witness :
    (Step.and .alwaysFalse .alwaysTrue).left = some .alwaysFalse ∧
    (Step.or .alwaysFalse .alwaysTrue).left = some .alwaysFalse ∧
    (Step.and .alwaysFalse .alwaysTrue).right = some .alwaysTrue ∧
    (Step.or .alwaysFalse .alwaysTrue).right = some .alwaysTrue ∧
    Step.downcast_ref (Step.as_any .alwaysFalse)
      (Step.typeOf .alwaysFalse) = some .alwaysFalse ∧
    Step.downcast_ref (Step.as_any .alwaysFalse) .alwaysTrue = none :=
  accessor_downcast_correct .alwaysFalse .alwaysTrue .alwaysTrue (by decide)

/-- Claim C9: `AlwaysTrue.verify()` returns success on every call, and
`AlwaysFalse.verify()` returns on every call the same fixed failure with
the identifying reason "AlwaysFalse"; neither leaf carries or changes any
state, so every invocation is identical. -/
theorem always_leaves_fixed_outcomes :
    Step.verify .alwaysTrue = (Except.ok (), .alwaysTrue) ∧
    Step.verify .alwaysFalse = (Except.error ⟨"AlwaysFalse"⟩, .alwaysFalse) :=
  ⟨rfl, rfl⟩

/-- Claim C10: Or-composition is associative with respect to the full
outcome: `Or(Or(a, b), c).verify()` and `Or(a, Or(b, c)).verify()` return
exactly the same outcome — success, or failure with the identical
reason. -/
theorem or_outcome_assoc (a b c : Step) :
    Step.outcome (.or (.or a b) c) = Step.outcome (.or a (.or b c)) := by
  rw [Step.outcome_or, Step.outcome_or, Step.outcome_or, Step.outcome_or]
  cases ha : Step.outcome a <;> cases hb : Step.outcome b <;> simp
